import Mathlib

/-!
Verification of the conversation-store and request-translation logic of the
ai-chatbot service (src/main.go) against its natural-language specification.

The embedding models:
  * parsed JSON values (Go's `map[string]interface{}` after `json.Unmarshal`)
    as an inductive `JSON` type, with objects as association lists;
  * the reply extractor `extractAssistantText`;
  * the `/chat` HTTP handler, the `ServeMux` routing and the CORS middleware,
    with the remote Bedrock `InvokeModel` call abstracted as an oracle input
    (`InvokeOutcome`) and the request-body JSON decode abstracted as its
    result (`DecodeResult`).
-/

namespace AiChatbot

/-- A parsed JSON value, as produced by Go's `json.Unmarshal` into
`interface{}`: objects become `map[string]interface{}` (modelled as an
association list with unique keys), arrays become `[]interface{}`,
numbers become `float64` (modelled as rationals; no claim depends on
numeric values). -/
inductive JSON where
  | null
  | bool (b : Bool)
  | num (q : Rat)
  | str (s : String)
  | arr (xs : List JSON)
  | obj (kvs : List (String × JSON))

/-- A parsed top-level JSON object, Go's `map[string]interface{}`. -/
abbrev JObj := List (String × JSON)

/-- Go map lookup `m[k]`: the value bound to `k`, or `none` when the key is
absent (in Go the nil interface, on which every type assertion fails). -/
def jLookup : JObj → String → Option JSON
  | [], _ => none
  | (k, v) :: rest, key => if k = key then some v else jLookup rest key

/-- Inner probe of the `choices` branch in `extractAssistantText`
(src/main.go lines 210-219): `choices[0].message.content[0].text`.
Returns `some t` when in Go one of the nested comma-ok chains fires and the
branch executes `return t`; `none` when control falls through to the
`c0["text"]` check. -/
def choicesMsgPath (c0 : JObj) : Option String :=
  match jLookup c0 "message" with
  | some (.obj msg) =>
    match jLookup msg "content" with
    | some (.arr (cbv :: _)) =>
      match cbv with
      | .obj cb =>
        match jLookup cb "text" with
        | some (.str t) => some t
        | _ => none
      | _ => none
    | _ => none
  | _ => none

/-- Last probe of `extractAssistantText` (src/main.go lines 226-232): the
top-level `content[0].text` path, falling through to `return ""`. -/
def extractFromContent (parsed : JObj) : String :=
  match jLookup parsed "content" with
  | some (.arr (cbv :: _)) =>
    match cbv with
    | .obj cb =>
      match jLookup cb "text" with
      | some (.str t) => t
      | _ => ""
    | _ => ""
  | _ => ""

/-- The `choices` branch of `extractAssistantText` (src/main.go lines
208-224) together with its fallthrough into the top-level `content` probe:
tries `choices[0].message.content[0].text`, then `choices[0].text`, and on
any failed comma-ok assertion falls through to `extractFromContent`. -/
def extractFromChoices (parsed : JObj) : String :=
  match jLookup parsed "choices" with
  | some (.arr (c0v :: _)) =>
    match c0v with
    | .obj c0 =>
      match choicesMsgPath c0 with
      | some t => t
      | none =>
        match jLookup c0 "text" with
        | some (.str t) => t
        | _ => extractFromContent parsed
    | _ => extractFromContent parsed
  | _ => extractFromContent parsed

/-- The reply extractor `extractAssistantText` (src/main.go lines 201-235):
first the direct `output_text` field (returned only when it is a non-empty
string), then the `choices` branch, then the top-level `content` branch,
else the empty string. -/
def extractAssistantText (parsed : JObj) : String :=
  match jLookup parsed "output_text" with
  | some (.str text) =>
    if text ≠ "" then text else extractFromChoices parsed
  | _ => extractFromChoices parsed

/-! ### Spec-side extraction strategies (for the refinement claim about the
probe order of the extractor).  Each probe matches one candidate JSON shape
from the spec and returns an optional match. -/

/-- Spec shape 1: the direct text field (`output_text`), which matches only
when it is a non-empty string (src/main.go lines 203-205). -/
def specProbeDirect (parsed : JObj) : Option String :=
  match jLookup parsed "output_text" with
  | some (.str text) => if text ≠ "" then some text else none
  | _ => none

/-- Spec shape 2: the `choices[0].message.content[0].text` path. -/
def specProbeChoicesMsg (parsed : JObj) : Option String :=
  match jLookup parsed "choices" with
  | some (.arr (c0v :: _)) =>
    match c0v with
    | .obj c0 => choicesMsgPath c0
    | _ => none
  | _ => none

/-- Extra shape present in the code but not in the spec's list: the
`choices[0].text` path (src/main.go lines 221-223). -/
def specProbeChoicesDirect (parsed : JObj) : Option String :=
  match jLookup parsed "choices" with
  | some (.arr (c0v :: _)) =>
    match c0v with
    | .obj c0 =>
      match jLookup c0 "text" with
      | some (.str t) => some t
      | _ => none
    | _ => none
  | _ => none

/-- Spec shape 3: the top-level `content[0].text` path. -/
def specProbeContent (parsed : JObj) : Option String :=
  match jLookup parsed "content" with
  | some (.arr (cbv :: _)) =>
    match cbv with
    | .obj cb =>
      match jLookup cb "text" with
      | some (.str t) => some t
      | _ => none
    | _ => none
  | _ => none

/-- The extractor as the spec's words describe it: exactly three candidate
shapes probed in priority order (direct text field, then the
`choices[0].message.content[0].text` path, then the top-level
`content[0].text` path), returning the first match and the no-text sentinel
(the empty string) when none matches. -/
def specExtractThreeShapes (parsed : JObj) : String :=
  match specProbeDirect parsed with
  | some t => t
  | none =>
    match specProbeChoicesMsg parsed with
    | some t => t
    | none =>
      match specProbeContent parsed with
      | some t => t
      | none => ""

/-- The extractor as an ordered list of four shape probes: the code's actual
priority order, which additionally probes `choices[0].text` between the
`choices[0].message.content[0].text` path and the top-level `content[0].text`
path. -/
def specExtractFourShapes (parsed : JObj) : String :=
  match specProbeDirect parsed with
  | some t => t
  | none =>
    match specProbeChoicesMsg parsed with
    | some t => t
    | none =>
      match specProbeChoicesDirect parsed with
      | some t => t
      | none =>
        match specProbeContent parsed with
        | some t => t
        | none => ""

/-! ### HTTP layer: the chat handler, the mux and the CORS middleware. -/

/-- The decoded `/chat` request body (struct `ChatRequest` in src/main.go):
the single `message` field the frontend sends. -/
structure ChatRequest where
  message : String

/-- A stored conversation message (struct `Message` in src/main.go). -/
structure Message where
  role : String
  content : String
deriving DecidableEq

/-- The in-process conversation store `store.m`: an append-only ordered list
of messages (the mutex only serializes access and is not modelled). -/
abbrev Store := List Message

/-- Result of `json.NewDecoder(r.Body).Decode(&cr)`: either a decode error
carrying the Go error text, or the decoded `ChatRequest`. -/
inductive DecodeResult where
  | failed (e : String)
  | ok (cr : ChatRequest)

/-- Outcome of the remote gateway call, abstracted as an oracle input to the
handler: `invokeErr e` when `br.InvokeModel` returns an error with text `e`;
`responded none` when the call succeeds but `json.Unmarshal` of the response
body into `map[string]interface{}` fails; `responded (some parsed)` when the
body decodes to the JSON object `parsed`. -/
inductive InvokeOutcome where
  | invokeErr (e : String)
  | responded (decoded : Option JObj)

/-- An HTTP response as the handlers produce it: either a plain
status/body pair (as written by `http.Error`, `w.Write`, or
`w.WriteHeader`), or the 200 JSON-encoded `ChatResponse{Response: r}`. -/
inductive HttpResp where
  | plain (status : Nat) (body : String)
  | chatOk (response : String)
deriving DecidableEq

/-- The status code carried by a response (`chatOk` is always written with
`http.StatusOK`). -/
def HttpResp.statusCode : HttpResp → Nat
  | .plain s _ => s
  | .chatOk _ => 200

/-- The `/chat` handler (src/main.go lines 92-180): method check, body
decode check, append of the user message, gateway call, response parse,
sentinel substitution, append of the assistant message, 200 reply.
`http.Error` appends a newline to its message. -/
def chatHandler (method : String) (body : DecodeResult)
    (invoke : InvokeOutcome) (st : Store) : HttpResp × Store :=
  if method ≠ "POST" then
    (.plain 405 "only POST\n", st)
  else
    match body with
    | .failed e => (.plain 400 ("bad request: " ++ e ++ "\n"), st)
    | .ok cr =>
      let st1 := st ++ [⟨"user", cr.message⟩]
      match invoke with
      | .invokeErr e => (.plain 500 ("model error: " ++ e ++ "\n"), st1)
      | .responded none =>
        (.plain 500 "failed to parse model response\n", st1)
      | .responded (some parsed) =>
        let t := extractAssistantText parsed
        let assistantText := if t = "" then "(no text returned)" else t
        let st2 := st1 ++ [⟨"assistant", assistantText⟩]
        (.chatOk assistantText, st2)

/-- An inbound HTTP request, carrying the method, the path, and the result
of decoding its body as a `ChatRequest` (only consulted by the chat
handler). -/
structure Request where
  method : String
  path : String
  body : DecodeResult

/-- The `ServeMux` routing (src/main.go lines 85-180): `/health` always
writes 200 `ok`, `/chat` runs the chat handler, anything else gets Go's
default 404 page. -/
def chatMux (req : Request) (invoke : InvokeOutcome) (st : Store) :
    HttpResp × Store :=
  if req.path = "/health" then (.plain 200 "ok", st)
  else if req.path = "/chat" then chatHandler req.method req.body invoke st
  else (.plain 404 "404 page not found\n", st)

/-- The full server: `corsMiddleware` (src/main.go lines 46-62) wrapped
around the mux.  An OPTIONS request of any path is answered 200 with an
empty body before the routed handler runs; every other request is passed
through.  (The CORS headers themselves are not modelled; no claim mentions
them.) -/
def server (req : Request) (invoke : InvokeOutcome) (st : Store) :
    HttpResp × Store :=
  if req.method = "OPTIONS" then (.plain 200 "", st)
  else chatMux req invoke st

/-! ### Panic-aware variant of the extractor, for the safety claim.
Go slice indexing `xs[i]` panics when out of range; the extractor guards
every index with a length check.  The variant below performs the same
computation in an error monad where an out-of-range index is a runtime
panic, so totality of the original follows from its agreement with this
variant never erroring. -/

/-- Go slice indexing `xs[i]`: the element when in range, a runtime panic
otherwise. -/
def goIndex (xs : List JSON) (i : Nat) : Except String JSON :=
  match xs.get? i with
  | some v => .ok v
  | none => .error "runtime error: index out of range"

/-- Panic-aware `choices[0].message.content[0].text` probe: indexes
`content[0]` through `goIndex` under the code's `len(content) > 0` guard. -/
def choicesMsgPathE (c0 : JObj) : Except String (Option String) :=
  match jLookup c0 "message" with
  | some (.obj msg) =>
    match jLookup msg "content" with
    | some (.arr content) =>
      if content.length > 0 then
        match goIndex content 0 with
        | .error e => .error e
        | .ok (.obj cb) =>
          match jLookup cb "text" with
          | some (.str t) => .ok (some t)
          | _ => .ok none
        | .ok _ => .ok none
      else .ok none
    | _ => .ok none
  | _ => .ok none

/-- Panic-aware top-level `content[0].text` probe. -/
def extractFromContentE (parsed : JObj) : Except String String :=
  match jLookup parsed "content" with
  | some (.arr content) =>
    if content.length > 0 then
      match goIndex content 0 with
      | .error e => .error e
      | .ok (.obj cb) =>
        match jLookup cb "text" with
        | some (.str t) => .ok t
        | _ => .ok ""
      | .ok _ => .ok ""
    else .ok ""
  | _ => .ok ""

/-- Panic-aware `choices` branch: indexes `choices[0]` through `goIndex`
under the code's `len(choices) > 0` guard. -/
def extractFromChoicesE (parsed : JObj) : Except String String :=
  match jLookup parsed "choices" with
  | some (.arr choices) =>
    if choices.length > 0 then
      match goIndex choices 0 with
      | .error e => .error e
      | .ok (.obj c0) =>
        match choicesMsgPathE c0 with
        | .error e => .error e
        | .ok (some t) => .ok t
        | .ok none =>
          match jLookup c0 "text" with
          | some (.str t) => .ok t
          | _ => extractFromContentE parsed
      | .ok _ => extractFromContentE parsed
    else extractFromContentE parsed
  | _ => extractFromContentE parsed

/-- Panic-aware `extractAssistantText`: the same computation as
`extractAssistantText` with every slice index performed through `goIndex`. -/
def extractAssistantTextE (parsed : JObj) : Except String String :=
  match jLookup parsed "output_text" with
  | some (.str text) =>
    if text ≠ "" then .ok text else extractFromChoicesE parsed
  | _ => extractFromChoicesE parsed

/-! ### Helper lemmas -/

/-- The last code branch and the spec's `content[0].text` probe agree. -/
lemma extractFromContent_eq_probe (p : JObj) :
    extractFromContent p = (specProbeContent p).getD "" := by
  unfold extractFromContent specProbeContent
  repeat' split
  all_goals rfl

/-- The code's `choices` branch (with its fallthrough) agrees with the
spec-side probes `choices[0].message.content[0].text`, then
`choices[0].text`, then `content[0].text`, in that order. -/
lemma extractFromChoices_eq_probes (p : JObj) :
    extractFromChoices p =
      match specProbeChoicesMsg p with
      | some t => t
      | none =>
        match specProbeChoicesDirect p with
        | some t => t
        | none => (specProbeContent p).getD "" := by
  unfold extractFromChoices specProbeChoicesMsg specProbeChoicesDirect
  repeat' split
  all_goals first
    | rfl
    | exact extractFromContent_eq_probe p
    | simp_all [extractFromContent_eq_probe]

/-- The extractor agrees with the flat four-shape priority order. -/
lemma extractAssistantText_eq_fourShapes (p : JObj) :
    extractAssistantText p = specExtractFourShapes p := by
  unfold extractAssistantText specExtractFourShapes specProbeDirect
  repeat' split
  all_goals first
    | rfl
    | exact extractFromChoices_eq_probes p
    | simp_all [extractFromChoices_eq_probes]

/-- The panic-aware inner `choices` probe never panics and agrees with the
plain one. -/
lemma choicesMsgPathE_eq (c0 : JObj) :
    choicesMsgPathE c0 = Except.ok (choicesMsgPath c0) := by
  unfold choicesMsgPathE choicesMsgPath
  repeat' split
  all_goals try rfl
  all_goals try simp_all only [Option.some.injEq, JSON.arr.injEq, JSON.obj.injEq, List.cons.injEq]
  all_goals try subst_vars
  all_goals try simp_all [goIndex, List.getElem_cons_zero]
  all_goals try subst_vars
  all_goals try simp_all [goIndex, List.getElem_cons_zero]
  all_goals
    (rename_i hnot
     rcases List.exists_cons_of_ne_nil (List.ne_nil_of_length_pos (by assumption)) with ⟨a, l, h2⟩
     exact absurd h2 (hnot a l))

/-- The panic-aware top-level `content` probe never panics and agrees with
the plain one. -/
lemma extractFromContentE_eq (p : JObj) :
    extractFromContentE p = Except.ok (extractFromContent p) := by
  unfold extractFromContentE extractFromContent
  repeat' split
  all_goals try rfl
  all_goals try simp_all only [Option.some.injEq, JSON.arr.injEq, JSON.obj.injEq, List.cons.injEq]
  all_goals try subst_vars
  all_goals try simp_all [goIndex, List.getElem_cons_zero]
  all_goals try subst_vars
  all_goals try simp_all [goIndex, List.getElem_cons_zero]
  all_goals
    (rename_i hnot
     rcases List.exists_cons_of_ne_nil (List.ne_nil_of_length_pos (by assumption)) with ⟨a, l, h2⟩
     exact absurd h2 (hnot a l))

/-- The panic-aware `choices` branch never panics and agrees with the plain
one. -/
lemma extractFromChoicesE_eq (p : JObj) :
    extractFromChoicesE p = Except.ok (extractFromChoices p) := by
  unfold extractFromChoicesE extractFromChoices
  repeat' split
  all_goals try (exact extractFromContentE_eq p)
  all_goals try simp_all only [Option.some.injEq, JSON.arr.injEq, JSON.obj.injEq, List.cons.injEq]
  all_goals try subst_vars
  all_goals try simp_all [goIndex, List.getElem_cons_zero, choicesMsgPathE_eq, extractFromContentE_eq]
  all_goals try subst_vars
  all_goals try simp_all [goIndex, List.getElem_cons_zero, choicesMsgPathE_eq, extractFromContentE_eq]
  all_goals
    (rename_i hnot
     rcases List.exists_cons_of_ne_nil (List.ne_nil_of_length_pos (by assumption)) with ⟨a, l, h2⟩
     exact absurd h2 (hnot a l))

/-! ### Claim theorems -/

/-- C1: for every well-formed POST /chat request body, the handler appends
exactly one user-role message (with the request's message string as content)
to the store before invoking the model gateway — witnessed by the store
contents on both gateway-failure outcomes — and appends exactly one
assistant-role message after a successful gateway call; no other store
mutation occurs in that handler execution. -/
theorem chat_appends_user_then_assistant (cr : ChatRequest) (st : Store) :
    (∀ e, (server ⟨"POST", "/chat", .ok cr⟩ (.invokeErr e) st).2
        = st ++ [⟨"user", cr.message⟩]) ∧
    ((server ⟨"POST", "/chat", .ok cr⟩ (.responded none) st).2
        = st ++ [⟨"user", cr.message⟩]) ∧
    (∀ parsed, ∃ a,
      (server ⟨"POST", "/chat", .ok cr⟩ (.responded (some parsed)) st).2
        = st ++ [⟨"user", cr.message⟩, ⟨"assistant", a⟩]) := by
  refine ⟨fun e => rfl, rfl, fun parsed => ?_⟩
  refine ⟨if extractAssistantText parsed = "" then "(no text returned)"
          else extractAssistantText parsed, ?_⟩
  have h : (server ⟨"POST", "/chat", .ok cr⟩ (.responded (some parsed)) st).2
      = (st ++ [⟨"user", cr.message⟩])
        ++ [⟨"assistant", if extractAssistantText parsed = ""
              then "(no text returned)" else extractAssistantText parsed⟩] := rfl
  rw [h, List.append_assoc]
  rfl

/-- C2 counterexample: the extractor does not follow the spec's three-shape
priority list — on an input whose only match is the extra `choices[0].text`
shape, the code returns that text while the three-shape extractor returns
the no-text sentinel. -/
theorem extract_priority_counterexample :
    extractAssistantText [("choices", .arr [.obj [("text", .str "choice text")]])]
      = "choice text" ∧
    specExtractThreeShapes [("choices", .arr [.obj [("text", .str "choice text")]])]
      = "" := ⟨rfl, rfl⟩

/-- C2 (amended): extractAssistantText probes the parsed JSON response in a
fixed priority order — the direct text field first, then the
`choices[0].message.content[0].text` path, then the `choices[0].text` path,
then the top-level `content[0].text` path — returning the text of the first
shape that matches and the no-text sentinel (the empty string) when none
matches. -/
theorem extract_follows_four_shape_priority (parsed : JObj) :
    extractAssistantText parsed = specExtractFourShapes parsed :=
  extractAssistantText_eq_fourShapes parsed

/-- C3: if the gateway call fails or its response body is not decodable
JSON, POST /chat responds with status 500, and the user message appended
before the call remains in the store (no rollback), leaving an unanswered
user turn. -/
theorem gateway_failure_500_no_rollback (cr : ChatRequest) (st : Store) :
    (∀ e, server ⟨"POST", "/chat", .ok cr⟩ (.invokeErr e) st
        = (.plain 500 ("model error: " ++ e ++ "\n"),
           st ++ [⟨"user", cr.message⟩])) ∧
    (server ⟨"POST", "/chat", .ok cr⟩ (.responded none) st
        = (.plain 500 "failed to parse model response\n",
           st ++ [⟨"user", cr.message⟩])) :=
  ⟨fun _ => rfl, rfl⟩

/-- C4 counterexample: an OPTIONS request to /chat is a non-POST request,
yet the server answers it with status 200 (from the CORS middleware), not
405. -/
theorem options_chat_not_405 :
    (server ⟨"OPTIONS", "/chat", .failed "EOF"⟩ (.responded none) []).1.statusCode
      = 200 ∧
    ¬((server ⟨"OPTIONS", "/chat", .failed "EOF"⟩ (.responded none) []).1.statusCode
      = 405) :=
  ⟨rfl, by decide⟩

/-- C4 (amended): for every request to /chat whose HTTP method is neither
POST nor OPTIONS, the server responds with status 405 (method not allowed)
and the conversation store is unchanged; an OPTIONS request is instead
answered 200 by the CORS middleware, also leaving the store unchanged. -/
theorem chat_non_post_non_options_405 (req : Request) (inv : InvokeOutcome)
    (st : Store) (hp : req.path = "/chat") (hm : req.method ≠ "POST")
    (ho : req.method ≠ "OPTIONS") :
    server req inv st = (.plain 405 "only POST\n", st) := by
  obtain ⟨m, pa, b⟩ := req
  subst hp
  simp_all [server, chatMux, chatHandler]

/-- Witness for C4 (amended): a GET request to /chat yields 405 with the
store unchanged. -/
theorem chat_non_post_non_options_405_witness :
    server ⟨"GET", "/chat", .failed "EOF"⟩ (.responded none) []
      = (.plain 405 "only POST\n", []) :=
  chat_non_post_non_options_405 ⟨"GET", "/chat", .failed "EOF"⟩ (.responded none)
    [] rfl (by decide) (by decide)

/-- C5: for every POST /chat request whose body is not well-formed JSON,
the server responds with status 400 and the conversation store is
unchanged. -/
theorem malformed_body_400_store_unchanged (e : String) (inv : InvokeOutcome)
    (st : Store) :
    server ⟨"POST", "/chat", .failed e⟩ inv st
      = (.plain 400 ("bad request: " ++ e ++ "\n"), st) := rfl

/-- C6: for each of the two canned gateway responses listed in the spec,
the extractor returns the embedded text. -/
theorem canned_responses_extracted :
    extractAssistantText [("content", .arr [.obj [("text", .str "hello")]])]
      = "hello" ∧
    extractAssistantText
        [("choices", .arr [.obj [("message",
            .obj [("content", .arr [.obj [("text", .str "hi")]])])]])]
      = "hi" :=
  ⟨rfl, rfl⟩

/-- C7: for every parsed gateway response in which none of the recognized
shapes matches, the extractor returns the empty string and the chat flow
stores and returns the sentinel "(no text returned)" instead of failing. -/
theorem unrecognized_shape_yields_sentinel (parsed : JObj) (cr : ChatRequest)
    (st : Store) (h1 : specProbeDirect parsed = none)
    (h2 : specProbeChoicesMsg parsed = none)
    (h3 : specProbeChoicesDirect parsed = none)
    (h4 : specProbeContent parsed = none) :
    extractAssistantText parsed = "" ∧
    server ⟨"POST", "/chat", .ok cr⟩ (.responded (some parsed)) st
      = (.chatOk "(no text returned)",
         st ++ [⟨"user", cr.message⟩, ⟨"assistant", "(no text returned)"⟩]) := by
  have hx : extractAssistantText parsed = "" := by
    rw [extractAssistantText_eq_fourShapes]
    unfold specExtractFourShapes
    rw [h1, h2, h3, h4]
  refine ⟨hx, ?_⟩
  simp [server, chatMux, chatHandler, hx, List.append_assoc]

/-- Witness for C7: a response object with only an unrecognized field
extracts to the empty string, and the chat flow stores and returns the
sentinel. -/
theorem unrecognized_shape_yields_sentinel_witness :
    extractAssistantText [("id", JSON.str "resp_1")] = "" ∧
    server ⟨"POST", "/chat", .ok ⟨"ping"⟩⟩
        (.responded (some [("id", JSON.str "resp_1")])) []
      = (.chatOk "(no text returned)",
         [⟨"user", "ping"⟩, ⟨"assistant", "(no text returned)"⟩]) :=
  unrecognized_shape_yields_sentinel [("id", JSON.str "resp_1")] ⟨"ping"⟩ []
    rfl rfl rfl rfl

/-- C8: for every OPTIONS request to any path, the CORS middleware responds
with status 200 before the routed handler runs, and the conversation store
is unchanged. -/
theorem options_preflight_200 (req : Request) (inv : InvokeOutcome)
    (st : Store) (h : req.method = "OPTIONS") :
    server req inv st = (.plain 200 "", st) := by
  simp [server, h]

/-- Witness for C8: an OPTIONS request to /chat with an undecodable body is
answered 200 with the store unchanged. -/
theorem options_preflight_200_witness :
    server ⟨"OPTIONS", "/chat", .failed "EOF"⟩ (.invokeErr "down") []
      = (.plain 200 "", []) :=
  options_preflight_200 ⟨"OPTIONS", "/chat", .failed "EOF"⟩ (.invokeErr "down")
    [] rfl

/-- C9: every assistant-role message the server appends to the store and
every reply string returned in a 200 ChatResponse is non-empty; moreover a
direct text field equal to the empty string is skipped by the extractor's
non-empty guard. -/
theorem assistant_messages_nonempty (req : Request) (inv : InvokeOutcome)
    (st : Store) :
    (∀ p, jLookup p "output_text" = some (.str "") → specProbeDirect p = none) ∧
    (∀ m ∈ ((server req inv st).2).drop st.length,
        m.role = "assistant" → m.content ≠ "") ∧
    (∀ r, (server req inv st).1 = .chatOk r → r ≠ "") := by
  obtain ⟨m, pa, b⟩ := req
  refine ⟨fun p h => ?_, ?_, ?_⟩
  · unfold specProbeDirect
    rw [h]
    simp
  all_goals
    unfold server chatMux chatHandler
    repeat' split
  all_goals
    try simp_all [List.drop_left, List.drop_length, List.append_assoc]
  all_goals split
  all_goals simp_all

/-- Witness for C9: the empty direct text field is skipped, and the
concrete sentinel reply produced for it is non-empty. -/
theorem assistant_messages_nonempty_witness :
    specProbeDirect [("output_text", JSON.str "")] = none ∧
    ("(no text returned)" : String) ≠ "" := by
  constructor
  · exact (assistant_messages_nonempty ⟨"POST", "/chat", .ok ⟨"hi"⟩⟩
      (.responded (some [("output_text", JSON.str "")])) []).1
      [("output_text", JSON.str "")] rfl
  · exact (assistant_messages_nonempty ⟨"POST", "/chat", .ok ⟨"hi"⟩⟩
      (.responded (some [("output_text", JSON.str "")])) []).2.2
      "(no text returned)" rfl

/-- C10: extractAssistantText is a total function on arbitrary parsed JSON
values: its panic-aware variant, in which every slice index is performed
through `goIndex` and an out-of-range access is a runtime panic, never
panics and returns exactly `extractAssistantText`'s string on every
input. -/
theorem extractAssistantText_total_no_panic (parsed : JObj) :
    extractAssistantTextE parsed = Except.ok (extractAssistantText parsed) := by
  unfold extractAssistantTextE extractAssistantText
  repeat' split
  all_goals first
    | rfl
    | exact extractFromChoicesE_eq parsed

end AiChatbot
